import Mathlib

/-!
Verification development for the EstJe repair-shop backend
(`src/backend/server.js`): a shallow embedding of the Express route
handlers over an explicit in-memory model of the MySQL store, with the
external libraries (`jsonwebtoken`, `mysql2`, `multer`) modelled by
their observable contracts at the call sites the server uses.
-/

namespace EstJe

/-! ## JavaScript number parsing (`parseInt(x) || default`) -/

/-- Whitespace characters skipped by JS `parseInt` (the common ones). -/
def jsWhitespace (c : Char) : Bool :=
  c = ' ' ∨ c = '\t' ∨ c = '\n' ∨ c = '\r'

/-- Value of a character as a digit in bases up to 16, as JS `parseInt`
reads digits. -/
def digitVal16 (c : Char) : Option Nat :=
  if '0' ≤ c ∧ c ≤ '9' then some (c.toNat - '0'.toNat)
  else if 'a' ≤ c ∧ c ≤ 'f' then some (c.toNat - 'a'.toNat + 10)
  else if 'A' ≤ c ∧ c ≤ 'F' then some (c.toNat - 'A'.toNat + 10)
  else none

/-- Is `c` a digit of base `radix`? -/
def isRadixDigit (radix : Nat) (c : Char) : Bool :=
  match digitVal16 c with
  | some v => v < radix
  | none => false

/-- Read the longest prefix of base-`radix` digits; `none` when that
prefix is empty (JS `parseInt` returns `NaN` then). -/
def parseDigits (radix : Nat) (cs : List Char) : Option Nat :=
  let ds := cs.takeWhile (isRadixDigit radix)
  if ds.isEmpty then none
  else some (ds.foldl (fun a c => a * radix + (digitVal16 c).getD 0) 0)

/-- JS `parseInt(s)` with no radix argument: skip leading whitespace,
read an optional sign, auto-detect a `0x`/`0X` hex prefix, then read the
longest digit prefix; `none` models `NaN`. -/
def jsParseInt (s : String) : Option Int :=
  let cs := s.data.dropWhile jsWhitespace
  let signed : Int × List Char :=
    match cs with
    | '-' :: t => (-1, t)
    | '+' :: t => (1, t)
    | _ => (1, cs)
  let based : Nat × List Char :=
    match signed.2 with
    | '0' :: c :: t => if c = 'x' ∨ c = 'X' then (16, t) else (10, '0' :: c :: t)
    | _ => (10, signed.2)
  (parseDigits based.1 based.2).map (fun n => signed.1 * (n : Int))

/-- `parseInt(q) || d` on an optional query-string value: an absent
parameter, a `NaN` parse, and a parse of `0` (all falsy) give the
default `d`; any other parsed value is used as is. -/
def jsToIntOrDefault (q : Option String) (d : Int) : Int :=
  match q with
  | none => d
  | some s =>
    match jsParseInt s with
    | none => d
    | some v => if v = 0 then d else v

/-! ## Data model: rows and the store

Body fields arrive from `express.json` / `multer` as strings or
`undefined`; `mysql2`'s text-protocol `query` escapes `undefined` to SQL
`NULL`, so row fields other than the auto-increment `id` are modelled as
`Option String`. -/

/-- A row of the `users` table. -/
structure UserRow where
  id : Nat
  email : String
  password : String
  role : String
deriving Repr, DecidableEq

/-- A row of the `devices` table. -/
structure DeviceRow where
  id : Nat
  name : Option String
  model : Option String
  description : Option String
  image : Option String
  price : Option String
  status : Option String
  client_name : Option String
  client_phone : Option String
deriving Repr, DecidableEq

/-- A row of the `services` table. -/
structure ServiceRow where
  id : Nat
  title : Option String
  description : Option String
  price : Option String
  image : Option String
  duration : Option String
  category : Option String
  is_available : Option String
  technician : Option String
deriving Repr, DecidableEq

/-- The three tables the server touches. -/
structure Store where
  users : List UserRow
  devices : List DeviceRow
  services : List ServiceRow
deriving Repr, DecidableEq

/-- Auto-increment: the id MySQL assigns to the next inserted row,
modelled as one past the largest id in the table. -/
def nextId (ids : List Nat) : Nat :=
  ids.foldr max 0 + 1

/-- MySQL's comparison of the integer `id` column against the string
taken from the URL path (`WHERE id = ?`): the string is coerced to a
number (leading sign and decimal digits; a nonzero fractional tail makes
equality with an integer fail; a non-numeric prefix coerces to 0). -/
def mysqlIdMatch (rid : Nat) (s : String) : Bool :=
  let cs := s.data.dropWhile jsWhitespace
  let signed : Int × List Char :=
    match cs with
    | '-' :: t => (-1, t)
    | '+' :: t => (1, t)
    | _ => (1, cs)
  let intPart : Int :=
    signed.1 * ((signed.2.takeWhile (isRadixDigit 10)).foldl
      (fun a c => a * 10 + (digitVal16 c).getD 0) 0 : Nat)
  let rest := signed.2.dropWhile (isRadixDigit 10)
  let fracNonzero : Bool :=
    match rest with
    | '.' :: t => (t.takeWhile (isRadixDigit 10)).any (fun c => c ≠ '0')
    | _ => false
  intPart = (rid : Int) && !fracNonzero

/-! ## Responses

`res.json(body)` without an explicit status sends 200, so every
constructor records its status code explicitly. -/

/-- An HTTP response of one of the API handlers. -/
inductive ApiResp where
  /-- `res.status(s).json({ error })`. -/
  | err (status : Nat) (error : String)
  /-- `res.status(s).json({ message })` (`res.json` alone is status 200). -/
  | msg (status : Nat) (message : String)
  /-- 200 `res.json({ token, role })` from the login handler. -/
  | loginOk (tokenId : Nat) (tokenRole : String) (tokenExpiresIn : String)
      (tokenSecret : String) (role : String)
  /-- 200 `res.json({ devices, total, page, limit })`. -/
  | devicesOk (devices : List DeviceRow) (total : Nat) (page lim : Int)
  /-- 200 `res.json({ services, total, page, limit })`. -/
  | servicesOk (services : List ServiceRow) (total : Nat) (page lim : Int)
deriving Repr, DecidableEq

/-! ## List handlers (GET /api/devices, GET /api/services)

`db.query('SELECT * FROM t LIMIT ? OFFSET ?', [limit, offset])` goes
through mysql2's text protocol, which splices the escaped integers into
the SQL; MySQL rejects a negative `LIMIT` or `OFFSET` literal as a
syntax error, which the handler's `catch` turns into a 500. -/

/-- `SELECT * FROM t LIMIT lim OFFSET off`: the slice of the table in
store order, or a database error when either bound is negative. -/
def selectSlice {α : Type} (rows : List α) (lim off : Int) : Except Unit (List α) :=
  if lim < 0 ∨ off < 0 then .error ()
  else .ok ((rows.drop off.toNat).take lim.toNat)

/-- GET /api/devices: parse `page`/`limit` with `parseInt(x) || d`,
compute `offset = (page-1)*limit`, return the slice plus the full
`COUNT(*)`; any query failure is a 500. Reads only. -/
def listDevices (st : Store) (pageQ limitQ : Option String) : ApiResp × Store :=
  let page := jsToIntOrDefault pageQ 1
  let lim := jsToIntOrDefault limitQ 10
  let off := (page - 1) * lim
  match selectSlice st.devices lim off with
  | .error _ => (.err 500 "Failed to fetch devices", st)
  | .ok ds => (.devicesOk ds st.devices.length page lim, st)

/-- GET /api/services: same shape as `listDevices` over the `services`
table. -/
def listServices (st : Store) (pageQ limitQ : Option String) : ApiResp × Store :=
  let page := jsToIntOrDefault pageQ 1
  let lim := jsToIntOrDefault limitQ 10
  let off := (page - 1) * lim
  match selectSlice st.services lim off with
  | .error _ => (.err 500 "Failed to fetch services", st)
  | .ok ss => (.servicesOk ss st.services.length page lim, st)

/-! ## Tokens (`jsonwebtoken`, modelled by its contract)

`jwt.sign(payload, secret, { expiresIn })` produces an HMAC-signed token
carrying the payload; `jwt.verify(token, secret, cb)` recovers the
payload exactly when the token was signed with the same secret, and
calls back with an error otherwise. -/

/-- The claims the server signs: `{ id, role }`. -/
structure TokenPayload where
  id : Nat
  role : String
deriving Repr, DecidableEq

/-- A signed token as the verifier sees it: the embedded claims, the
`expiresIn` option it was signed with, and the signing secret. -/
structure Token where
  payload : TokenPayload
  expiresIn : String
  secret : String
deriving Repr, DecidableEq

/-- `jwt.sign({ id, role }, secret, { expiresIn })`. -/
def jwtSign (p : TokenPayload) (secret expiresIn : String) : Token :=
  ⟨p, expiresIn, secret⟩

/-- `jwt.verify(t, secret, cb)`: the decoded claims when the signature
checks out against `secret`, `none` for the error callback branch. -/
def jwtVerify (t : Token) (secret : String) : Option TokenPayload :=
  if t.secret = secret then some t.payload else none

/-! ## Auth gate (`authenticateToken` middleware) -/

/-- JS `String.prototype.split(' ')` on the character list: every
single space starts a new piece, empty pieces are kept, and the empty
string splits to one empty piece. -/
def splitCharsOnSpace : List Char → List (List Char)
  | [] => [[]]
  | c :: t =>
    let r := splitCharsOnSpace t
    if c = ' ' then [] :: r
    else
      match r with
      | [] => [[c]]
      | h :: t2 => (c :: h) :: t2

/-- JS `s.split(' ')`. -/
def jsSplitSpace (s : String) : List String :=
  (splitCharsOnSpace s.data).map (fun cs => String.mk cs)

/-- `authHeader && authHeader.split(' ')[1]`, followed by the falsiness
test `!token`: the second space-separated component of the header when
the header is present and that component exists and is nonempty. -/
def extractToken (authHeader : Option String) : Option String :=
  match authHeader with
  | none => none
  | some h =>
    match (jsSplitSpace h)[1]? with
    | none => none
    | some t => if t = "" then none else some t

/-- Outcome of the middleware: an early JSON rejection, or control
passed to the route handler with `req.user` set to the decoded claims. -/
inductive AuthResult where
  | reject (status : Nat) (error : String)
  | proceed (user : TokenPayload)
deriving Repr, DecidableEq

/-- The `authenticateToken` middleware. `verify` is the
`jwt.verify(·, process.env.JWT_SECRET, ·)` step on the extracted token
string (the wire format of tokens is opaque to the middleware). -/
def authenticateToken (verify : String → Option TokenPayload)
    (authHeader : Option String) : AuthResult :=
  match extractToken authHeader with
  | none => .reject 401 "Token required"
  | some tok =>
    match verify tok with
    | none => .reject 403 "Invalid token"
    | some user => .proceed user

/-! ## Route registrations -/

/-- HTTP methods the server registers handlers for. -/
inductive Method where
  | GET | POST | PUT | DELETE
deriving Repr, DecidableEq

/-- One `app.<method>(path, ...)` registration; `guarded` records
whether `authenticateToken` is in its middleware chain. -/
structure RouteReg where
  method : Method
  path : String
  guarded : Bool
deriving Repr, DecidableEq

/-- Every API route registration of `server.js`, in source order. -/
def apiRoutes : List RouteReg :=
  [ ⟨.POST, "/api/register", false⟩,
    ⟨.POST, "/api/login", false⟩,
    ⟨.GET, "/api/devices", true⟩,
    ⟨.POST, "/api/devices", true⟩,
    ⟨.PUT, "/api/devices/:id", true⟩,
    ⟨.DELETE, "/api/devices/:id", true⟩,
    ⟨.GET, "/api/services", true⟩,
    ⟨.POST, "/api/services", true⟩,
    ⟨.PUT, "/api/services/:id", true⟩,
    ⟨.DELETE, "/api/services/:id", true⟩ ]

/-! ## Credential handlers -/

/-- JS falsiness of an optional body string: `undefined` and `""`. -/
def jsFalsyStr (o : Option String) : Bool :=
  match o with
  | none => true
  | some s => s = ""

/-- POST /api/register: reject `400 Invalid input` when either field is
absent or empty; reject `400 Email already exists` when
`SELECT * FROM users WHERE email = ?` finds a row; otherwise
`INSERT INTO users (email, password, role) VALUES (?, ?, 'user')` and
answer `201 User registered`. -/
def register (st : Store) (email password : Option String) : ApiResp × Store :=
  if jsFalsyStr email ∨ jsFalsyStr password then
    (.err 400 "Invalid input", st)
  else
    let existingUsers := st.users.filter (fun u => email = some u.email)
    if existingUsers.length > 0 then
      (.err 400 "Email already exists", st)
    else
      match email, password with
      | some e, some p =>
        let newUser : UserRow := ⟨nextId (st.users.map (·.id)), e, p, "user"⟩
        (.msg 201 "User registered", { st with users := st.users ++ [newUser] })
      | _, _ => (.err 400 "Invalid input", st)

/-- POST /api/login: look up by email (`users[0]` of the query result);
`401 User not found` when no row matches; `401 Invalid password` when
the supplied password is not strictly equal to the stored one; otherwise
sign `{ id, role }` with a 1-hour expiry and answer
200 `{ token, role }`. -/
def login (st : Store) (secret : String) (email password : Option String) :
    ApiResp × Store :=
  let users := st.users.filter (fun u => email = some u.email)
  match users.head? with
  | none => (.err 401 "User not found", st)
  | some user =>
    if password ≠ some user.password then
      (.err 401 "Invalid password", st)
    else
      let token := jwtSign ⟨user.id, user.role⟩ secret "1h"
      (.loginOk token.payload.id token.payload.role token.expiresIn
        token.secret user.role, st)

/-! ## Device handlers

`req.file` is modelled as the optional filename multer stored; the
handler turns it into the public path. Body fields are the optional
strings of the multipart form. -/

/-- The device fields read from `req.body`. -/
structure DeviceBody where
  name : Option String
  model : Option String
  description : Option String
  price : Option String
  status : Option String
  client_name : Option String
  client_phone : Option String
  image : Option String
deriving Repr, DecidableEq

/-- POST /api/devices: image is the uploaded file's path when a file is
attached, else the placeholder; insert one row; `201 Device added`. -/
def createDevice (st : Store) (body : DeviceBody) (file : Option String) :
    ApiResp × Store :=
  let image : Option String :=
    match file with
    | some f => some ("/uploads/" ++ f)
    | none => some "/uploads/placeholder.jpg"
  let row : DeviceRow :=
    ⟨nextId (st.devices.map (·.id)), body.name, body.model, body.description,
      image, body.price, body.status, body.client_name, body.client_phone⟩
  (.msg 201 "Device added", { st with devices := st.devices ++ [row] })

/-- PUT /api/devices/:id: image is the uploaded file's path when a file
is attached, else `req.body.image` verbatim; full-row
`UPDATE ... WHERE id = ?` with no existence check; `200 Device updated`
regardless of how many rows matched. -/
def updateDevice (st : Store) (idStr : String) (body : DeviceBody)
    (file : Option String) : ApiResp × Store :=
  let image : Option String :=
    match file with
    | some f => some ("/uploads/" ++ f)
    | none => body.image
  let devices := st.devices.map (fun d =>
    if mysqlIdMatch d.id idStr then
      { d with
        name := body.name
        model := body.model
        description := body.description
        image := image
        price := body.price
        status := body.status
        client_name := body.client_name
        client_phone := body.client_phone }
    else d)
  (.msg 200 "Device updated", { st with devices := devices })

/-- DELETE /api/devices/:id: `DELETE FROM devices WHERE id = ?`, no
existence check; `200 Device deleted` regardless of rows affected. -/
def deleteDevice (st : Store) (idStr : String) : ApiResp × Store :=
  (.msg 200 "Device deleted",
    { st with devices := st.devices.filter (fun d => !mysqlIdMatch d.id idStr) })

/-! ## Service handlers (mirror the device handlers) -/

/-- The service fields read from `req.body`. -/
structure ServiceBody where
  title : Option String
  description : Option String
  price : Option String
  duration : Option String
  category : Option String
  is_available : Option String
  technician : Option String
  image : Option String
deriving Repr, DecidableEq

/-- POST /api/services: like `createDevice` for the `services` table;
`201 Service added`. -/
def createService (st : Store) (body : ServiceBody) (file : Option String) :
    ApiResp × Store :=
  let image : Option String :=
    match file with
    | some f => some ("/uploads/" ++ f)
    | none => some "/uploads/placeholder.jpg"
  let row : ServiceRow :=
    ⟨nextId (st.services.map (·.id)), body.title, body.description, body.price,
      image, body.duration, body.category, body.is_available, body.technician⟩
  (.msg 201 "Service added", { st with services := st.services ++ [row] })

/-- PUT /api/services/:id: like `updateDevice` for the `services`
table; `200 Service updated`. -/
def updateService (st : Store) (idStr : String) (body : ServiceBody)
    (file : Option String) : ApiResp × Store :=
  let image : Option String :=
    match file with
    | some f => some ("/uploads/" ++ f)
    | none => body.image
  let services := st.services.map (fun s =>
    if mysqlIdMatch s.id idStr then
      { s with
        title := body.title
        description := body.description
        price := body.price
        image := image
        duration := body.duration
        category := body.category
        is_available := body.is_available
        technician := body.technician }
    else s)
  (.msg 200 "Service updated", { st with services := services })

/-- DELETE /api/services/:id: like `deleteDevice` for the `services`
table; `200 Service deleted`. -/
def deleteService (st : Store) (idStr : String) : ApiResp × Store :=
  (.msg 200 "Service deleted",
    { st with services := st.services.filter (fun s => !mysqlIdMatch s.id idStr) })

/-! ## Concrete fixtures -/

/-- A device row with the given id and every other column NULL. -/
def blankDevice (i : Nat) : DeviceRow :=
  ⟨i, none, none, none, none, none, none, none, none⟩

/-- A service row with the given id and every other column NULL. -/
def blankService (i : Nat) : ServiceRow :=
  ⟨i, none, none, none, none, none, none, none, none⟩

/-- A store whose `devices` table holds ten rows with ids 1..10. -/
def store10 : Store :=
  ⟨[], (List.range 10).map (fun i => blankDevice (i + 1)), []⟩

/-- A store with one user, one device and one service. -/
def store1 : Store :=
  ⟨[⟨1, "a@x.com", "p", "user"⟩], [blankDevice 1], [blankService 1]⟩

/-- The store with all three tables empty. -/
def storeEmpty : Store :=
  ⟨[], [], []⟩

/-- A store whose tables auto-incremented independently: the `devices`
table holds only id 1 while the `services` table holds only id 7, so
each id is present in exactly one of the two tables. -/
def storeCross : Store :=
  ⟨[], [blankDevice 1], [blankService 7]⟩

/-! ## Helper lemmas -/

/-- `users[0]` of a filtered list is the unique element satisfying the
predicate, when there is one. -/
theorem head_filter_unique {α : Type} {l : List α} {p : α → Bool} {u : α}
    (hu : u ∈ l) (hpu : p u = true) (huniq : ∀ v ∈ l, p v = true → v = u) :
    (l.filter p).head? = some u := by
  induction l with
  | nil => cases hu
  | cons a t ih =>
    rcases List.mem_cons.1 hu with rfl | hut
    · simp [List.filter_cons, hpu]
    · by_cases hpa : p a = true
      · have : a = u := huniq a (List.mem_cons_self a t) hpa
        subst this
        simp [List.filter_cons, hpa]
      · have hpa' : p a = false := by
          cases h : p a
          · rfl
          · exact absurd h hpa
        have ih' := ih hut (fun v hv hpv => huniq v (List.mem_cons_of_mem a hv) hpv)
        simpa [List.filter_cons, hpa'] using ih'

/-- A map that fixes every element of a list is the identity on it. -/
theorem map_eq_self_of_eq {α : Type} {l : List α} {f : α → α}
    (h : ∀ a ∈ l, f a = a) : l.map f = l := by
  induction l with
  | nil => rfl
  | cons a t ih =>
    simp only [List.map_cons, h a (List.mem_cons_self a t),
      ih (fun b hb => h b (List.mem_cons_of_mem a hb))]

/-- The invalid-input branch of the register handler. -/
theorem register_invalid (st : Store) (email password : Option String)
    (h : jsFalsyStr email = true ∨ jsFalsyStr password = true) :
    register st email password = (.err 400 "Invalid input", st) := by
  rcases h with h | h <;> simp [register, h]

/-- The conflict branch of the register handler. -/
theorem register_conflict (st : Store) (e p : String)
    (he : e ≠ "") (hp : p ≠ "") (hex : ∃ u ∈ st.users, u.email = e) :
    register st (some e) (some p) = (.err 400 "Email already exists", st) := by
  have hfe : jsFalsyStr (some e) = false := by simp [jsFalsyStr, he]
  have hfp : jsFalsyStr (some p) = false := by simp [jsFalsyStr, hp]
  have hlen : 0 < (st.users.filter (fun u => some e = some u.email)).length := by
    rcases hex with ⟨u, hu, hue⟩
    have hmem : u ∈ st.users.filter (fun u => some e = some u.email) := by
      simp [List.mem_filter, hu, hue]
    exact List.length_pos.mpr (List.ne_nil_of_mem hmem)
  simp [register, hfe, hfp, hlen]
  rcases hex with ⟨u, hu, hue⟩
  exact ⟨u, hu, hue.symm⟩

/-- The insert branch of the register handler: a fresh user row with
role "user" is appended. -/
theorem register_new (st : Store) (e p : String)
    (he : e ≠ "") (hp : p ≠ "") (hnew : ∀ u ∈ st.users, u.email ≠ e) :
    register st (some e) (some p) =
      (.msg 201 "User registered",
        { st with users :=
            st.users ++ [⟨nextId (st.users.map (·.id)), e, p, "user"⟩] }) := by
  have hfe : jsFalsyStr (some e) = false := by simp [jsFalsyStr, he]
  have hfp : jsFalsyStr (some p) = false := by simp [jsFalsyStr, hp]
  have hfil : st.users.filter (fun u => some e = some u.email) = [] := by
    rw [List.filter_eq_nil_iff]
    intro u hu
    simp only [decide_eq_true_eq, Option.some.injEq]
    exact fun h => hnew u hu h.symm
  simp [register, hfe, hfp, hfil]
  exact fun a ha h => hnew a ha h.symm

/-- The user-not-found branch of the login handler. -/
theorem login_no_user (st : Store) (secret : String) (email password : Option String)
    (hnone : ∀ u ∈ st.users, email ≠ some u.email) :
    login st secret email password = (.err 401 "User not found", st) := by
  have hfil : st.users.filter (fun v => email = some v.email) = [] := by
    rw [List.filter_eq_nil_iff]
    intro u hu
    simp only [decide_eq_true_eq]
    exact hnone u hu
  simp [login, hfil]

/-- The wrong-password branch of the login handler, for the first user
the email query returns. -/
theorem login_wrong_password (st : Store) (secret : String)
    (email password : Option String) (u : UserRow)
    (hhead : (st.users.filter (fun v => email = some v.email)).head? = some u)
    (hne : password ≠ some u.password) :
    login st secret email password = (.err 401 "Invalid password", st) := by
  simp [login, hhead, hne]

/-- The success branch of the login handler, for the first user the
email query returns. -/
theorem login_success (st : Store) (secret : String)
    (email password : Option String) (u : UserRow)
    (hhead : (st.users.filter (fun v => email = some v.email)).head? = some u)
    (hpw : password = some u.password) :
    login st secret email password =
      (.loginOk u.id u.role "1h" secret u.role, st) := by
  subst hpw
  simp [login, hhead, jwtSign]

/-! ## Claim C10 -/

/-- C10: List is read-only — for every store state and every page/limit
query, handling GET /api/devices or GET /api/services leaves every table
of the store unchanged. -/
theorem C10_list_readonly (st : Store) (pageQ limitQ : Option String) :
    (listDevices st pageQ limitQ).2 = st ∧ (listServices st pageQ limitQ).2 = st := by
  constructor
  · cases h : selectSlice st.devices (jsToIntOrDefault limitQ 10)
      ((jsToIntOrDefault pageQ 1 - 1) * jsToIntOrDefault limitQ 10) <;>
      simp [listDevices, h]
  · cases h : selectSlice st.services (jsToIntOrDefault limitQ 10)
      ((jsToIntOrDefault pageQ 1 - 1) * jsToIntOrDefault limitQ 10) <;>
      simp [listServices, h]

/-! ## Claim C9 -/

/-- C9: when the Authorization header is present but has no
space-separated second component, the gate answers 401 "Token required"
for every verifier — token verification and the 403 branch are never
reached. -/
theorem C9_bare_token_401 (verify : String → Option TokenPayload) (h : String)
    (hs : (jsSplitSpace h)[1]? = none) :
    authenticateToken verify (some h) = .reject 401 "Token required" := by
  simp [authenticateToken, extractToken, hs]

/-- Witness for C9 at the bare header "sometoken". -/
theorem C9_bare_token_401_witness :
    authenticateToken (fun _ => some ⟨1, "user"⟩) (some "sometoken") =
      .reject 401 "Token required" :=
  C9_bare_token_401 (fun _ => some ⟨1, "user"⟩) "sometoken" (by decide)

/-! ## Claim C3 -/

/-- C3: every /api/devices and /api/services route registration carries
the auth gate while /api/register and /api/login do not, and the gate
answers 401 "Token required" when no token is extracted, 403
"Invalid token" when the extracted token fails verification, and runs
the downstream handler with the decoded claims attached otherwise. -/
theorem C3_auth_gate :
    (∀ r ∈ apiRoutes,
      r.path ∈ ["/api/devices", "/api/devices/:id", "/api/services",
        "/api/services/:id"] →
      r.guarded = true) ∧
    (∀ r ∈ apiRoutes,
      (r.path = "/api/register" ∨ r.path = "/api/login") → r.guarded = false) ∧
    (∀ verify authHeader, extractToken authHeader = none →
      authenticateToken verify authHeader = .reject 401 "Token required") ∧
    (∀ verify authHeader t, extractToken authHeader = some t → verify t = none →
      authenticateToken verify authHeader = .reject 403 "Invalid token") ∧
    (∀ verify authHeader t user, extractToken authHeader = some t →
      verify t = some user →
      authenticateToken verify authHeader = .proceed user) := by
  refine ⟨by decide, by decide, ?_, ?_, ?_⟩
  · intro verify authHeader hx
    simp [authenticateToken, hx]
  · intro verify authHeader t hx hv
    simp [authenticateToken, hx, hv]
  · intro verify authHeader t user hx hv
    simp [authenticateToken, hx, hv]

/-- Witness for C3: the three gate outcomes at concrete headers and
verifiers. -/
theorem C3_auth_gate_witness :
    authenticateToken (fun _ => some ⟨5, "user"⟩) none = .reject 401 "Token required" ∧
    authenticateToken (fun _ => none) (some "Bearer abc") = .reject 403 "Invalid token" ∧
    authenticateToken (fun _ => some ⟨5, "user"⟩) (some "Bearer abc") = .proceed ⟨5, "user"⟩ :=
  ⟨C3_auth_gate.2.2.1 _ none rfl,
   C3_auth_gate.2.2.2.1 _ (some "Bearer abc") "abc" (by decide) rfl,
   C3_auth_gate.2.2.2.2 _ (some "Bearer abc") "abc" ⟨5, "user"⟩ (by decide) rfl⟩

/-! ## Claim C1 -/

/-- C1 counterexample: the query value "-2" does not denote a positive
integer, yet `parseInt("-2") || 1` parses page to −2, not the default 1
— and the handler then answers 500 because the negative offset breaks
the LIMIT/OFFSET query. -/
theorem C1_counterexample :
    jsToIntOrDefault (some "-2") 1 = -2 ∧
    jsToIntOrDefault (some "-2") 1 ≠ 1 ∧
    (listDevices storeEmpty (some "-2") (some "5")).1 =
      ApiResp.err 500 "Failed to fetch devices" := by
  refine ⟨by decide, by decide, by decide⟩

/-- C1 (amended): page and limit are computed by `parseInt(q) || d`
with defaults 1 and 10: the default is used when the parameter is
absent or its parse is NaN or 0, and any other parsed value — including
negative integers and leading-integer truncations such as "3.5" — is
used verbatim; the page and limit echoed by a successful List response
are exactly these parsed values. -/
theorem C1_parse_or_default (d : Int) :
    jsToIntOrDefault none d = d ∧
    (∀ s, jsParseInt s = none → jsToIntOrDefault (some s) d = d) ∧
    (∀ s, jsParseInt s = some 0 → jsToIntOrDefault (some s) d = d) ∧
    (∀ s v, jsParseInt s = some v → v ≠ 0 → jsToIntOrDefault (some s) d = v) ∧
    (∀ st pageQ limitQ ds t p l,
      (listDevices st pageQ limitQ).1 = ApiResp.devicesOk ds t p l →
      p = jsToIntOrDefault pageQ 1 ∧ l = jsToIntOrDefault limitQ 10) ∧
    (∀ st pageQ limitQ ss t p l,
      (listServices st pageQ limitQ).1 = ApiResp.servicesOk ss t p l →
      p = jsToIntOrDefault pageQ 1 ∧ l = jsToIntOrDefault limitQ 10) := by
  refine ⟨rfl, ?_, ?_, ?_, ?_, ?_⟩
  · intro s h
    simp [jsToIntOrDefault, h]
  · intro s h
    simp [jsToIntOrDefault, h]
  · intro s v h hv
    simp [jsToIntOrDefault, h, hv]
  · intro st pageQ limitQ ds t p l h
    simp only [listDevices] at h
    split at h
    · exact absurd h (by simp)
    · exact ⟨(ApiResp.devicesOk.injEq _ _ _ _ _ _ _ _ ▸ h).2.2.1.symm ▸ rfl, by
        cases h; exact rfl⟩
  · intro st pageQ limitQ ss t p l h
    simp only [listServices] at h
    split at h
    · exact absurd h (by simp)
    · exact ⟨by cases h; exact rfl, by cases h; exact rfl⟩

/-- Witness for C1 (amended): concrete parses — "abc" and "0" default,
"7" is used verbatim, and a successful List echoes the parsed pair. -/
theorem C1_parse_or_default_witness :
    jsToIntOrDefault (some "abc") (1 : Int) = 1 ∧
    jsToIntOrDefault (some "0") (10 : Int) = 10 ∧
    jsToIntOrDefault (some "7") (1 : Int) = 7 ∧
    ((1 : Int) = jsToIntOrDefault (some "1") 1 ∧
      (10 : Int) = jsToIntOrDefault (some "10") 10) :=
  ⟨(C1_parse_or_default 1).2.1 "abc" (by decide),
   (C1_parse_or_default 10).2.2.1 "0" (by decide),
   (C1_parse_or_default 1).2.2.2.1 "7" 7 (by decide) (by decide),
   (C1_parse_or_default 1).2.2.2.2.1 storeEmpty (some "1") (some "10") [] 0 1 10
     (by decide)⟩

/-! ## Claim C7 -/

/-- C7 counterexample: with ten rows in the table, the request
page="-1", limit="5" parses page to −1, the negative offset makes the
LIMIT/OFFSET query fail, and the handler answers 500 — it returns no
slice and no total at all. -/
theorem C7_counterexample :
    (listDevices store10 (some "-1") (some "5")).1 =
      ApiResp.err 500 "Failed to fetch devices" ∧
    ∀ ds t p l, (listDevices store10 (some "-1") (some "5")).1 ≠
      ApiResp.devicesOk ds t p l := by
  refine ⟨by decide, ?_⟩
  intro ds t p l h
  rw [show (listDevices store10 (some "-1") (some "5")).1 =
    ApiResp.err 500 "Failed to fetch devices" from by decide] at h
  exact ApiResp.noConfusion h

/-- C7 (amended): for every List request whose parsed page and limit
are at least 1 (which covers every absent, non-numeric or
positive-integer query value), the rows returned are the slice of the
table starting at offset (page−1)×limit of length at most limit, in
store order, and the returned total is the full row count independent
of page and limit. -/
theorem C7_list_slice (st : Store) (pageQ limitQ : Option String)
    (hp : 1 ≤ jsToIntOrDefault pageQ 1) (hl : 1 ≤ jsToIntOrDefault limitQ 10) :
    (listDevices st pageQ limitQ).1 =
      ApiResp.devicesOk
        ((st.devices.drop
            ((jsToIntOrDefault pageQ 1 - 1) * jsToIntOrDefault limitQ 10).toNat).take
          (jsToIntOrDefault limitQ 10).toNat)
        st.devices.length (jsToIntOrDefault pageQ 1) (jsToIntOrDefault limitQ 10) ∧
    (listServices st pageQ limitQ).1 =
      ApiResp.servicesOk
        ((st.services.drop
            ((jsToIntOrDefault pageQ 1 - 1) * jsToIntOrDefault limitQ 10).toNat).take
          (jsToIntOrDefault limitQ 10).toNat)
        st.services.length (jsToIntOrDefault pageQ 1) (jsToIntOrDefault limitQ 10) ∧
    ((st.devices.drop
        ((jsToIntOrDefault pageQ 1 - 1) * jsToIntOrDefault limitQ 10).toNat).take
      (jsToIntOrDefault limitQ 10).toNat).length ≤
      (jsToIntOrDefault limitQ 10).toNat ∧
    ((st.services.drop
        ((jsToIntOrDefault pageQ 1 - 1) * jsToIntOrDefault limitQ 10).toNat).take
      (jsToIntOrDefault limitQ 10).toNat).length ≤
      (jsToIntOrDefault limitQ 10).toNat := by
  have hl0 : ¬ (jsToIntOrDefault limitQ 10 < 0) := by omega
  have hoff : ¬ ((jsToIntOrDefault pageQ 1 - 1) * jsToIntOrDefault limitQ 10 < 0) := by
    have h0 : 0 ≤ (jsToIntOrDefault pageQ 1 - 1) * jsToIntOrDefault limitQ 10 :=
      mul_nonneg (by omega) (by omega)
    omega
  refine ⟨?_, ?_, ?_, ?_⟩
  · simp [listDevices, selectSlice, hl0, hoff]
  · simp [listServices, selectSlice, hl0, hoff]
  · simp [List.length_take]
  · simp [List.length_take]

/-- Witness for C7 (amended): page=2, limit=5 over a ten-row devices
table returns rows 6–10 and total 10. -/
theorem C7_list_slice_witness :
    (listDevices store10 (some "2") (some "5")).1 =
      ApiResp.devicesOk
        [blankDevice 6, blankDevice 7, blankDevice 8, blankDevice 9, blankDevice 10]
        10 2 5 := by
  have h := C7_list_slice store10 (some "2") (some "5") (by decide) (by decide)
  rw [h.1]
  decide

/-! ## Claim C2 -/

/-- C2: when no row of the corresponding table matches the id in the
URL — regardless of what the other table holds — Update and Delete on
that table answer 200 with their success message and leave every row of
every table unchanged. -/
theorem C2_missing_id_noop (st : Store) (idStr : String) :
    ((∀ d ∈ st.devices, mysqlIdMatch d.id idStr = false) →
      (∀ body file,
        updateDevice st idStr body file = (.msg 200 "Device updated", st)) ∧
      deleteDevice st idStr = (.msg 200 "Device deleted", st)) ∧
    ((∀ s ∈ st.services, mysqlIdMatch s.id idStr = false) →
      (∀ body file,
        updateService st idStr body file = (.msg 200 "Service updated", st)) ∧
      deleteService st idStr = (.msg 200 "Service deleted", st)) := by
  refine ⟨fun hd => ⟨?_, ?_⟩, fun hs => ⟨?_, ?_⟩⟩
  · intro body file
    simp only [updateDevice]
    rw [map_eq_self_of_eq (fun d hd' => by simp [hd d hd'])]
  · simp only [deleteDevice]
    rw [List.filter_eq_self.mpr (fun d hd' => by simp [hd d hd'])]
  · intro body file
    simp only [updateService]
    rw [map_eq_self_of_eq (fun s hs' => by simp [hs s hs'])]
  · simp only [deleteService]
    rw [List.filter_eq_self.mpr (fun s hs' => by simp [hs s hs'])]

/-- Witness for C2 over `storeCross`, where the two tables overlap on
neither id: id 7 is absent from `devices` yet present in `services`,
and id 1 the other way around; each endpoint no-ops on the id missing
from its own table. -/
theorem C2_missing_id_noop_witness :
    updateDevice storeCross "7" ⟨none, none, none, none, none, none, none, none⟩
      none = (ApiResp.msg 200 "Device updated", storeCross) ∧
    deleteDevice storeCross "7" = (ApiResp.msg 200 "Device deleted", storeCross) ∧
    updateService storeCross "1" ⟨none, none, none, none, none, none, none, none⟩
      none = (ApiResp.msg 200 "Service updated", storeCross) ∧
    deleteService storeCross "1" = (ApiResp.msg 200 "Service deleted", storeCross) := by
  have hdev := (C2_missing_id_noop storeCross "7").1 (by decide)
  have hserv := (C2_missing_id_noop storeCross "1").2 (by decide)
  exact ⟨hdev.1 _ none, hdev.2, hserv.1 _ none, hserv.2⟩

/-! ## Claim C4 -/

/-- C4: register answers 400 "Invalid input" with the store unchanged
when either field is absent or empty; otherwise 400
"Email already exists" with the store unchanged when a user with that
email exists, for every password; otherwise it inserts exactly one new
user with the given email and password and role "user" and answers
201. -/
theorem C4_register (st : Store) (email password : Option String) :
    ((email = none ∨ email = some "" ∨ password = none ∨ password = some "") →
      register st email password = (.err 400 "Invalid input", st)) ∧
    (∀ e p, email = some e → password = some p → e ≠ "" → p ≠ "" →
      (∃ u ∈ st.users, u.email = e) →
      register st email password = (.err 400 "Email already exists", st)) ∧
    (∀ e p, email = some e → password = some p → e ≠ "" → p ≠ "" →
      (∀ u ∈ st.users, u.email ≠ e) →
      register st email password =
        (.msg 201 "User registered",
          { st with users :=
              st.users ++ [⟨nextId (st.users.map (·.id)), e, p, "user"⟩] })) := by
  refine ⟨?_, ?_, ?_⟩
  · intro h
    apply register_invalid
    rcases h with h | h | h | h <;> subst h <;> simp [jsFalsyStr]
  · intro e p hee hpp he hp hex
    subst hee; subst hpp
    exact register_conflict st e p he hp hex
  · intro e p hee hpp he hp hnew
    subst hee; subst hpp
    exact register_new st e p he hp hnew

/-- Witness for C4: the three branches at concrete inputs over
`store1` (whose one user has email "a@x.com"). -/
theorem C4_register_witness :
    register store1 none (some "p") = (ApiResp.err 400 "Invalid input", store1) ∧
    register store1 (some "a@x.com") (some "wrong") =
      (ApiResp.err 400 "Email already exists", store1) ∧
    register store1 (some "b@x.com") (some "q") =
      (ApiResp.msg 201 "User registered",
        { store1 with users := store1.users ++ [⟨2, "b@x.com", "q", "user"⟩] }) := by
  refine ⟨(C4_register store1 none (some "p")).1 (Or.inl rfl), ?_, ?_⟩
  · exact (C4_register store1 (some "a@x.com") (some "wrong")).2.1 "a@x.com" "wrong"
      rfl rfl (by decide) (by decide) ⟨⟨1, "a@x.com", "p", "user"⟩, by decide, rfl⟩
  · have h := (C4_register store1 (some "b@x.com") (some "q")).2.2 "b@x.com" "q"
      rfl rfl (by decide) (by decide) (by decide)
    rw [h]
    decide

/-! ## Claim C5 -/

/-- C5: for every valid non-empty email/password pair whose email is
not yet registered, register answers 201, the immediately following
login on the same pair answers the 200 token response, and the token's
decoded claims carry role "user" — the role stored for that user. -/
theorem C5_register_then_login (st : Store) (secret e p : String)
    (he : e ≠ "") (hp : p ≠ "") (hnew : ∀ u ∈ st.users, u.email ≠ e) :
    (register st (some e) (some p)).1 = ApiResp.msg 201 "User registered" ∧
    (login (register st (some e) (some p)).2 secret (some e) (some p)).1 =
      ApiResp.loginOk (nextId (st.users.map (·.id))) "user" "1h" secret "user" ∧
    jwtVerify (jwtSign ⟨nextId (st.users.map (·.id)), "user"⟩ secret "1h") secret =
      some ⟨nextId (st.users.map (·.id)), "user"⟩ := by
  have hreg := register_new st e p he hp hnew
  refine ⟨by rw [hreg], ?_, by simp [jwtVerify, jwtSign]⟩
  have hhead : ((register st (some e) (some p)).2.users.filter
      (fun v => some e = some v.email)).head? =
      some ⟨nextId (st.users.map (·.id)), e, p, "user"⟩ := by
    rw [hreg]
    apply head_filter_unique
    · exact List.mem_append_right _ (by simp)
    · simp
    · intro v hv hpv
      rcases List.mem_append.1 hv with hv | hv
      · have hev : e = v.email := by simpa using hpv
        exact absurd hev.symm (hnew v hv)
      · simpa using hv
  have hlog := login_success (register st (some e) (some p)).2 secret (some e)
    (some p) ⟨nextId (st.users.map (·.id)), e, p, "user"⟩ hhead rfl
  rw [hlog]

/-- Witness for C5: registering "a@x.com"/"p" on the empty store and
logging in gives the token for user id 1 with role "user". -/
theorem C5_register_then_login_witness :
    nextId (storeEmpty.users.map (·.id)) = 1 ∧
    (register storeEmpty (some "a@x.com") (some "p")).1 =
      ApiResp.msg 201 "User registered" ∧
    (login (register storeEmpty (some "a@x.com") (some "p")).2 "s"
        (some "a@x.com") (some "p")).1 =
      ApiResp.loginOk (nextId (storeEmpty.users.map (·.id))) "user" "1h" "s" "user" ∧
    jwtVerify (jwtSign ⟨nextId (storeEmpty.users.map (·.id)), "user"⟩ "s" "1h") "s" =
      some ⟨nextId (storeEmpty.users.map (·.id)), "user"⟩ := by
  have h := C5_register_then_login storeEmpty "s" "a@x.com" "p"
    (by decide) (by decide) (by simp [storeEmpty])
  exact ⟨by decide, h.1, h.2.1, h.2.2⟩

/-! ## Claim C6 -/

/-- C6: login answers 401 "User not found" when no user has the given
email; 401 "Invalid password" when the user with that email exists (it
is unique by the store invariant) and the supplied password is not
exactly the stored one; and on success the 200 response carries the
role and a token embedding the matched user's id and role with a 1-hour
expiry. -/
theorem C6_login (st : Store) (secret : String) (email password : Option String) :
    ((∀ u ∈ st.users, email ≠ some u.email) →
      login st secret email password = (.err 401 "User not found", st)) ∧
    (∀ u, u ∈ st.users → email = some u.email →
      (∀ v ∈ st.users, v.email = u.email → v = u) →
      password ≠ some u.password →
      login st secret email password = (.err 401 "Invalid password", st)) ∧
    (∀ u, u ∈ st.users → email = some u.email →
      (∀ v ∈ st.users, v.email = u.email → v = u) →
      password = some u.password →
      login st secret email password =
        (.loginOk u.id u.role "1h" secret u.role, st)) := by
  refine ⟨login_no_user st secret email password, ?_, ?_⟩
  · intro u hu hem huniq hpw
    subst hem
    have hhead : (st.users.filter
        (fun v => some u.email = some v.email)).head? = some u := by
      apply head_filter_unique hu (by simp)
      intro v hv hpv
      have hev : u.email = v.email := by simpa using hpv
      exact huniq v hv hev.symm
    exact login_wrong_password st secret _ password u hhead hpw
  · intro u hu hem huniq hpw
    subst hem
    have hhead : (st.users.filter
        (fun v => some u.email = some v.email)).head? = some u := by
      apply head_filter_unique hu (by simp)
      intro v hv hpv
      have hev : u.email = v.email := by simpa using hpv
      exact huniq v hv hev.symm
    exact login_success st secret _ password u hhead hpw

/-- Witness for C6: the three branches over `store1`, whose one user is
⟨1, "a@x.com", "p", "user"⟩. -/
theorem C6_login_witness :
    login store1 "s" (some "b@x.com") (some "p") =
      (ApiResp.err 401 "User not found", store1) ∧
    login store1 "s" (some "a@x.com") (some "wrong") =
      (ApiResp.err 401 "Invalid password", store1) ∧
    login store1 "s" (some "a@x.com") (some "p") =
      (ApiResp.loginOk 1 "user" "1h" "s" "user", store1) := by
  refine ⟨?_, ?_, ?_⟩
  · exact (C6_login store1 "s" (some "b@x.com") (some "p")).1 (by decide)
  · exact (C6_login store1 "s" (some "a@x.com") (some "wrong")).2.1
      ⟨1, "a@x.com", "p", "user"⟩ (by decide) rfl (by decide) (by decide)
  · exact (C6_login store1 "s" (some "a@x.com") (some "p")).2.2
      ⟨1, "a@x.com", "p", "user"⟩ (by decide) rfl (by decide) rfl

/-! ## Claim C8 -/

/-- C8: Create stores the uploaded file's path as the image when a file
is attached and the placeholder "/uploads/placeholder.jpg" when not;
Update stores the uploaded file's path when a file is attached and
otherwise the image value supplied in the request body, verbatim — for
the device and service handlers alike. -/
theorem C8_image_resolution (st : Store) :
    (∀ body f, ∃ row : DeviceRow,
      (createDevice st body (some f)).2.devices = st.devices ++ [row] ∧
      row.image = some ("/uploads/" ++ f)) ∧
    (∀ body, ∃ row : DeviceRow,
      (createDevice st body none).2.devices = st.devices ++ [row] ∧
      row.image = some "/uploads/placeholder.jpg") ∧
    (∀ idStr body f d, d ∈ (updateDevice st idStr body (some f)).2.devices →
      mysqlIdMatch d.id idStr = true → d.image = some ("/uploads/" ++ f)) ∧
    (∀ idStr body d, d ∈ (updateDevice st idStr body none).2.devices →
      mysqlIdMatch d.id idStr = true → d.image = body.image) ∧
    (∀ body f, ∃ row : ServiceRow,
      (createService st body (some f)).2.services = st.services ++ [row] ∧
      row.image = some ("/uploads/" ++ f)) ∧
    (∀ body, ∃ row : ServiceRow,
      (createService st body none).2.services = st.services ++ [row] ∧
      row.image = some "/uploads/placeholder.jpg") ∧
    (∀ idStr body f s, s ∈ (updateService st idStr body (some f)).2.services →
      mysqlIdMatch s.id idStr = true → s.image = some ("/uploads/" ++ f)) ∧
    (∀ idStr body s, s ∈ (updateService st idStr body none).2.services →
      mysqlIdMatch s.id idStr = true → s.image = body.image) := by
  refine ⟨?_, ?_, ?_, ?_, ?_, ?_, ?_, ?_⟩
  · intro body f
    exact ⟨_, rfl, rfl⟩
  · intro body
    exact ⟨_, rfl, rfl⟩
  · intro idStr body f d hd hmatch
    rcases List.mem_map.1 hd with ⟨d0, hd0, rfl⟩
    by_cases h0 : mysqlIdMatch d0.id idStr = true
    · rw [if_pos h0]
    · rw [if_neg h0] at hmatch ⊢
      exact absurd hmatch h0
  · intro idStr body d hd hmatch
    rcases List.mem_map.1 hd with ⟨d0, hd0, rfl⟩
    by_cases h0 : mysqlIdMatch d0.id idStr = true
    · rw [if_pos h0]
    · rw [if_neg h0] at hmatch ⊢
      exact absurd hmatch h0
  · intro body f
    exact ⟨_, rfl, rfl⟩
  · intro body
    exact ⟨_, rfl, rfl⟩
  · intro idStr body f s hs hmatch
    rcases List.mem_map.1 hs with ⟨s0, hs0, rfl⟩
    by_cases h0 : mysqlIdMatch s0.id idStr = true
    · rw [if_pos h0]
    · rw [if_neg h0] at hmatch ⊢
      exact absurd hmatch h0
  · intro idStr body s hs hmatch
    rcases List.mem_map.1 hs with ⟨s0, hs0, rfl⟩
    by_cases h0 : mysqlIdMatch s0.id idStr = true
    · rw [if_pos h0]
    · rw [if_neg h0] at hmatch ⊢
      exact absurd hmatch h0

/-- Witness for C8: updating row id 1 of `store1` with an upload stores
"/uploads/new.jpg"; without an upload it stores the body's image value
"keep.jpg" verbatim — for devices and services. -/
theorem C8_image_resolution_witness :
    (⟨1, none, none, none, some "/uploads/new.jpg", none, none, none, none⟩ :
        DeviceRow).image = some ("/uploads/" ++ "new.jpg") ∧
    (⟨1, none, none, none, some "keep.jpg", none, none, none, none⟩ :
        DeviceRow).image =
      (⟨none, none, none, none, none, none, none, some "keep.jpg"⟩ :
        DeviceBody).image ∧
    (⟨1, none, none, none, some "/uploads/new.jpg", none, none, none, none⟩ :
        ServiceRow).image = some ("/uploads/" ++ "new.jpg") ∧
    (⟨1, none, none, none, some "keep.jpg", none, none, none, none⟩ :
        ServiceRow).image =
      (⟨none, none, none, none, none, none, none, some "keep.jpg"⟩ :
        ServiceBody).image :=
  ⟨(C8_image_resolution store1).2.2.1 "1"
      ⟨none, none, none, none, none, none, none, some "keep.jpg"⟩ "new.jpg"
      ⟨1, none, none, none, some "/uploads/new.jpg", none, none, none, none⟩
      (by decide) (by decide),
   (C8_image_resolution store1).2.2.2.1 "1"
      ⟨none, none, none, none, none, none, none, some "keep.jpg"⟩
      ⟨1, none, none, none, some "keep.jpg", none, none, none, none⟩
      (by decide) (by decide),
   (C8_image_resolution store1).2.2.2.2.2.2.1 "1"
      ⟨none, none, none, none, none, none, none, some "keep.jpg"⟩ "new.jpg"
      ⟨1, none, none, none, some "/uploads/new.jpg", none, none, none, none⟩
      (by decide) (by decide),
   (C8_image_resolution store1).2.2.2.2.2.2.2 "1"
      ⟨none, none, none, none, none, none, none, some "keep.jpg"⟩
      ⟨1, none, none, none, some "keep.jpg", none, none, none, none⟩
      (by decide) (by decide)⟩

end EstJe
